import Mathlib

/-
  Verification development for the Irrigazione5 irrigation controller.

  The Python modules under scrutiny are embedded shallowly:
  - module-level mutable variables become fields of an explicit state record
    (SysState); note that program_state.program_running, and the copies of it
    held by program_manager and zone_manager, are DISTINCT Python names: a
    function that executes the statement
        global program_running
        from program_state import program_running
    rebinds its own module global to the current value of the program_state
    module global.  The embedding keeps those variables separate
    (psRunning / pmRunning) and models the rebinding explicitly, because the
    observable behaviour of start_zone / stop_program / execute_program
    depends on it.
  - GPIO writes may raise; a Faults record lists the pins whose write raises
    (a failed write leaves the pin unchanged).
  - cooperative sleeps become unit ticks; a stop_program request arriving
    during a sleep is modelled by the cancelAt tick parameter.
  - files become fields of the state (programsFile, fileRunning, ...);
    the user-settings document read by load_user_settings is represented by
    its resolved scalar values (maxZoneDuration, maxActiveZones,
    activationDelay, autoEnabled) on SysState, and in full key-by-key detail
    by SettingsDoc for the settings_manager claims.
  - logging and printing have no effect on any claim and are dropped.
-/

set_option maxRecDepth 10000

/-! ### Association lists (Python dict with insertion order, unique keys) -/

/-- Lookup of a key in an association list (dict indexing / membership). -/
def alookup {α β : Type} [DecidableEq α] : List (α × β) → α → Option β
  | [], _ => none
  | (a, b) :: t, k => if a = k then some b else alookup t k

/-- Assignment d[k] = v: replace the value at an existing key in place,
otherwise append the binding at the end (Python dict insertion order). -/
def aset {α β : Type} [DecidableEq α] : List (α × β) → α → β → List (α × β)
  | [], k, v => [(k, v)]
  | (a, b) :: t, k, v => if a = k then (k, v) :: t else (a, b) :: aset t k v

/-- Deletion del d[k]: remove the first binding of the key. -/
def aerase {α β : Type} [DecidableEq α] : List (α × β) → α → List (α × β)
  | [], _ => []
  | (a, b) :: t, k => if a = k then t else (a, b) :: aerase t k

/-! ### Calendar arithmetic

time.mktime((y, m, d, 0, 0, 0, 0, 0)) followed by time.localtime(...)[7]
normalises an arbitrary (year, month, day) triple and yields its day of the
year (1-based).  We embed it with the standard civil-calendar day count
(days since 1970-01-01, Gregorian). -/

/-- Leap year test of the Gregorian calendar. -/
def isLeapYear (y : Int) : Bool :=
  (y % 4 == 0 && y % 100 != 0) || y % 400 == 0

/-- Days from 1970-01-01 to the first day of civil date (y, m, d) with
m in 1..12 (Howard Hinnant days_from_civil). -/
def days_from_civil (y m d : Int) : Int :=
  let yy := if m ≤ 2 then y - 1 else y
  let era := Int.fdiv yy 400
  let yoe := yy - era * 400
  let mp := if m > 2 then m - 3 else m + 9
  let doy := Int.fdiv (153 * mp + 2) 5 + d - 1
  let doe := yoe * 365 + Int.fdiv yoe 4 - Int.fdiv yoe 100 + doy
  era * 146097 + doe - 719468

/-- Civil year containing an absolute day number (inverse direction of
days_from_civil, year component only). -/
def year_from_days (z : Int) : Int :=
  let z2 := z + 719468
  let era := Int.fdiv z2 146097
  let doe := z2 - era * 146097
  let yoe := Int.fdiv (doe - Int.fdiv doe 1460 + Int.fdiv doe 36524 - Int.fdiv doe 146096) 365
  let y := yoe + era * 400
  let doy := doe - (365 * yoe + Int.fdiv yoe 4 - Int.fdiv yoe 100)
  let mp := Int.fdiv (5 * doy + 2) 153
  let m := if mp < 10 then mp + 3 else mp - 9
  if m ≤ 2 then y + 1 else y

/-- Day of year (1-based, as localtime item 7) of an absolute day number. -/
def yday_from_days (z : Int) : Int :=
  z - days_from_civil (year_from_days z) 1 1 + 1

/-- Day of year obtained by the mktime/localtime round trip on an arbitrary
(year, month, day) triple: months and days outside range are normalised. -/
def mk_yday (y m d : Int) : Int :=
  let y2 := y + Int.fdiv (m - 1) 12
  let m2 := Int.fmod (m - 1) 12 + 1
  yday_from_days (days_from_civil y2 m2 1 + (d - 1))

/-- Parse of the statement year, month, day = map(int, s.split(chr(45)));
none models the ValueError path (wrong arity or non-numeric part). -/
def parse_ymd (s : String) : Option (Int × Int × Int) :=
  match (s.splitOn "-").map String.toInt? with
  | [some y, some m, some d] => some (y, m, d)
  | _ => none

/-! ### Data model -/

/-- One step of a program: step.get(key) semantics for possibly missing
zone_id and duration keys. -/
structure Step where
  zone_id : Option Int
  duration : Option Int
deriving DecidableEq, Repr

/-- One stored program record.  Keys read through .get with a default are
embedded as Option fields (or as the defaulted type when every access
defaults to the same empty value: months and steps default to [] and name
to the empty string everywhere they are read with .get). -/
structure Program where
  id : Option String
  name : String
  months : List String
  recurrence : Option String
  interval_days : Option Int
  activation_time : Option String
  steps : List Step
  last_run_date : Option String
deriving DecidableEq, Repr

/-- One entry of zone_manager.active_zones: start wall-clock time, planned
duration in minutes, and the auto-stop timer task handle. -/
structure ActiveRec where
  start_time : Nat
  duration : Int
  task : Nat
deriving DecidableEq, Repr

/-- Fault model for GPIO writes: the zone ids whose pin write raises and
whether the safety-relay write raises.  A failed write leaves the output
unchanged. -/
structure Faults where
  zoneWriteFails : List Int
  safetyWriteFails : Bool
deriving DecidableEq, Repr

/-- No GPIO write fails. -/
def noFaults : Faults := ⟨[], false⟩

/-- Combined mutable state of the kernel modules.
psRunning/psCurrent are program_state module globals, pmRunning/pmCurrent
the program_manager module globals of the same names (independent bindings,
see the header comment), fileRunning/fileCurrent the persisted
program_state.json content, programsFile the persisted program.json content,
and the remaining scalar fields the values the zone and program managers
obtain from load_user_settings().get(...). -/
structure SysState where
  psRunning : Bool
  psCurrent : Option String
  pmRunning : Bool
  pmCurrent : Option String
  fileRunning : Bool
  fileCurrent : Option String
  zonePins : List Int
  pinAsserted : List (Int × Bool)
  safetyPresent : Bool
  safetyOn : Bool
  activeZones : List (Int × ActiveRec)
  nextTask : Nat
  cancelledTasks : List Nat
  programsFile : List (String × Program)
  maxZoneDuration : Int
  maxActiveZones : Int
  activationDelay : Int
  autoEnabled : Bool
deriving DecidableEq, Repr

/-! ### zone_manager -/

/-- zone_manager.start_zone(zone_id, duration).  The busy test re-imports
program_running from program_state, so it reads psRunning (never the
executor flag pmRunning).  Returns the boolean result and the new state. -/
def start_zone (f : Faults) (now : Nat) (st : SysState) (zone_id : Int)
    (duration : Int) : Bool × SysState :=
  if st.psRunning then (false, st)
  else if ¬ (st.zonePins.contains zone_id) then (false, st)
  else if duration ≤ 0 ∨ duration > st.maxZoneDuration then (false, st)
  else if (st.activeZones.length : Int) ≥ st.maxActiveZones ∧
          (alookup st.activeZones zone_id).isNone then (false, st)
  else
    let needSafety := st.safetyPresent && st.activeZones.isEmpty
    if needSafety ∧ f.safetyWriteFails then (false, st)
    else
      let st1 := if needSafety then { st with safetyOn := true } else st
      if f.zoneWriteFails.contains zone_id then (false, st1)
      else
        let st2 := { st1 with pinAsserted := aset st1.pinAsserted zone_id true }
        let st3 :=
          match alookup st2.activeZones zone_id with
          | some r => { st2 with cancelledTasks := r.task :: st2.cancelledTasks }
          | none => st2
        let task := st3.nextTask
        (true, { st3 with
                   nextTask := task + 1,
                   activeZones :=
                     aset st3.activeZones zone_id ⟨now, duration, task⟩ })

/-- zone_manager.stop_zone(zone_id).  A failed de-assert write returns False
at once, before the table removal; a failed safety de-assert returns False
after the removal. -/
def stop_zone (f : Faults) (st : SysState) (zone_id : Int) : Bool × SysState :=
  if ¬ (st.zonePins.contains zone_id) then (false, st)
  else if f.zoneWriteFails.contains zone_id then (false, st)
  else
    let st1 := { st with pinAsserted := aset st.pinAsserted zone_id false }
    let st2 :=
      match alookup st1.activeZones zone_id with
      | some r => { st1 with
                      cancelledTasks := r.task :: st1.cancelledTasks,
                      activeZones := aerase st1.activeZones zone_id }
      | none => st1
    if st2.safetyPresent ∧ st2.activeZones.isEmpty then
      if f.safetyWriteFails then (false, st2)
      else (true, { st2 with safetyOn := false })
    else (true, st2)

/-- Inner fold of zone_manager.stop_all_zones over a snapshot of the keys. -/
def stop_all_fold (f : Faults) : List Int → Bool × SysState → Bool × SysState
  | [], acc => acc
  | z :: zs, acc =>
      let r := stop_zone f acc.2 z
      stop_all_fold f zs (acc.1 && r.1, r.2)

/-- zone_manager.stop_all_zones(). -/
def stop_all_zones (f : Faults) (st : SysState) : Bool × SysState :=
  if st.activeZones.isEmpty then (true, st)
  else stop_all_fold f (st.activeZones.map Prod.fst) (true, st)

/-! ### program_state -/

/-- program_state.save_program_state(): dumps the program_state module
globals (not the executor copies) to program_state.json. -/
def save_program_state (st : SysState) : SysState :=
  { st with fileRunning := st.psRunning, fileCurrent := st.psCurrent }

/-! ### program_manager -/

/-- Id normalisation of one loaded record: a missing id key is filled from
the dict key. -/
def norm_id (k : String) (q : Program) : Program :=
  match q.id with
  | none => { q with id := some k }
  | some _ => q

/-- program_manager.load_programs(): each record whose id key is missing
gets it filled from its dict key (in memory only). -/
def load_programs (file : List (String × Program)) : List (String × Program) :=
  file.map (fun kp => (kp.1, norm_id kp.1 kp.2))

/-- Month-set intersection test used by check_program_conflicts:
set(a) & set(b) is non-empty. -/
def months_intersect (a b : List String) : Bool :=
  a.any (fun m => b.contains m)

/-- Skip test of the conflicts loop: the statement
if exclude_id and str(pid) == str(exclude_id) — an exclude id is skipped
only when it is truthy (a non-empty string) and equal to the key. -/
def skip_check (exclude_id : Option String) (pid : String) : Bool :=
  match exclude_id with
  | some e => (!(e == "")) && pid == e
  | none => false

/-- Loop body of program_manager.check_program_conflicts. -/
def conflicts_loop (program : Program) (exclude_id : Option String) :
    List (String × Program) → Bool × String
  | [] => (false, "")
  | (pid, existing) :: rest =>
      if skip_check exclude_id pid then
        conflicts_loop program exclude_id rest
      else if months_intersect program.months existing.months then
        (true, "Conflitto con il programma " ++ existing.name ++
               " nei mesi selezionati")
      else conflicts_loop program exclude_id rest

/-- program_manager.check_program_conflicts(program, programs, exclude_id):
returns (has_conflict, conflict_message). -/
def check_program_conflicts (program : Program)
    (programs : List (String × Program)) (exclude_id : Option String) :
    Bool × String :=
  if program.months.isEmpty then (false, "")
  else conflicts_loop program exclude_id programs

/-- Effect of program_manager.update_last_run_date on the program.json
content: reload (normalising missing ids), set last_run_date of the record
when the id is present, and save; an absent id leaves the file untouched. -/
def upd_file (today : String) (program_id : String)
    (file : List (String × Program)) : List (String × Program) :=
  let programs := load_programs file
  match alookup programs program_id with
  | some p =>
      aset programs program_id { p with last_run_date := some today }
  | none => file

/-- program_manager.update_last_run_date(program_id) with today the local
date string. -/
def update_last_run_date (today : String) (program_id : String)
    (st : SysState) : SysState :=
  { st with programsFile := upd_file today program_id st.programsFile }

/-- program_manager.stop_program().  The local statement
from program_state import program_running, current_program_id (under a
global declaration) first rebinds the program_manager globals to the
program_state values; only then is the busy test evaluated. -/
def stop_program (f : Faults) (st : SysState) : Bool × SysState :=
  let st0 := { st with pmRunning := st.psRunning, pmCurrent := st.psCurrent }
  if ¬ st0.pmRunning then (false, st0)
  else
    let st1 := { st0 with pmRunning := false, pmCurrent := none }
    let st2 := save_program_state st1
    let r := stop_all_zones f st2
    (true, r.2)

/-- One second of cooperative sleep inside the executor polling loops:
if a stop_program request is scheduled for this tick it runs during the
sleep. -/
def sleep_tick (f : Faults) (cancelAt : Option Nat) (tick : Nat)
    (st : SysState) : SysState :=
  if cancelAt = some tick then (stop_program f st).2 else st

/-- The 1-second polling loop
for _ in range(n): if not program_running: break; await asyncio.sleep(1)
of execute_program; returns the advanced tick counter and state. -/
def wait_loop (f : Faults) (cancelAt : Option Nat) :
    Nat → Nat → SysState → Nat × SysState
  | 0, tick, st => (tick, st)
  | n + 1, tick, st =>
      if ¬ st.pmRunning then (tick, st)
      else wait_loop f cancelAt n (tick + 1) (sleep_tick f cancelAt tick st)

/-- Step loop of program_manager.execute_program over the enumerated steps,
with total the full step count and delay the activation_delay setting. -/
def exec_steps (f : Faults) (cancelAt : Option Nat) (now : Nat)
    (delay : Int) (total : Nat) :
    List (Nat × Step) → Nat → SysState → Nat × SysState
  | [], tick, st => (tick, st)
  | (i, step) :: rest, tick, st =>
      if ¬ st.pmRunning then (tick, st)
      else
        match step.zone_id with
        | none => exec_steps f cancelAt now delay total rest tick st
        | some z =>
            let d := step.duration.getD 1
            let r := start_zone f now st z d
            if ¬ r.1 then exec_steps f cancelAt now delay total rest tick r.2
            else
              let w := wait_loop f cancelAt (d * 60).toNat tick r.2
              if ¬ w.2.pmRunning then w
              else
                let s := stop_zone f w.2 z
                if delay > 0 ∧ (i : Int) < (total : Int) - 1 then
                  let w2 := wait_loop f cancelAt (delay * 60).toNat w.1 s.2
                  exec_steps f cancelAt now delay total rest w2.1 w2.2
                else exec_steps f cancelAt now delay total rest w.1 s.2

/-- program_manager.execute_program(program, manual).  The function first
rebinds its module globals from program_state (local import under a global
declaration), then tests the busy flag; the try body always reaches
update_last_run_date (even after a cancellation break), and the finally
block clears the executor flag, persists the program_state values and stops
all zones.  Exceptions are not modelled (GPIO failures are already return
values inside start_zone / stop_zone). -/
def execute_program (f : Faults) (cancelAt : Option Nat) (now : Nat)
    (today : String) (prog : Program) (manual : Bool) (st : SysState) :
    Bool × SysState :=
  let st0 := { st with pmRunning := st.psRunning, pmCurrent := st.psCurrent }
  if st0.pmRunning then (false, st0)
  else
    let st1 := if ¬ manual ∧ st0.activeZones.length > 0 then
                 (stop_all_zones f st0).2
               else st0
    let st2 := (stop_all_zones f st1).2
    let pid := prog.id.getD "0"
    let st3 := save_program_state
      { st2 with pmRunning := true, pmCurrent := some pid }
    let r := exec_steps f cancelAt now st3.activationDelay prog.steps.length
      prog.steps.enum 0 st3
    let st4 := update_last_run_date today pid r.2
    let st5 := save_program_state { st4 with pmRunning := false, pmCurrent := none }
    let st6 := (stop_all_zones f st5).2
    (true, st6)

/-- program_manager.is_program_active_in_current_month: map the Italian
month names to 1..12 and test membership of the current month. -/
def months_map : String → Option Nat
  | "Gennaio" => some 1
  | "Febbraio" => some 2
  | "Marzo" => some 3
  | "Aprile" => some 4
  | "Maggio" => some 5
  | "Giugno" => some 6
  | "Luglio" => some 7
  | "Agosto" => some 8
  | "Settembre" => some 9
  | "Ottobre" => some 10
  | "Novembre" => some 11
  | "Dicembre" => some 12
  | _ => none

/-- Membership of the current month in the program months (unknown names
are dropped by the comprehension). -/
def is_program_active_in_current_month (curMonth : Nat) (p : Program) : Bool :=
  (p.months.filterMap months_map).contains curMonth

/-- program_manager.is_program_due_today with current_yday the current day
of the year; a missing or unparsable last_run_date leaves the sentinel -1. -/
def is_program_due_today (current_yday : Int) (p : Program) : Bool :=
  let last_run_day : Int :=
    match p.last_run_date with
    | none => -1
    | some s =>
        match parse_ymd s with
        | some (y, m, d) => mk_yday y m d
        | none => -1
  let recurrence := p.recurrence.getD "giornaliero"
  if recurrence = "giornaliero" then ¬ (last_run_day = current_yday)
  else if recurrence = "giorni_alterni" then current_yday - last_run_day ≥ 2
  else if recurrence = "personalizzata" then
    let k0 := p.interval_days.getD 1
    let k := if k0 ≤ 0 then 1 else k0
    current_yday - last_run_day ≥ k
  else false

/-- Broken-down local time as read by the scheduler in one tick. -/
structure Clock where
  hhmm : String
  month : Nat
  yday : Int
  today : String
  now : Nat
deriving DecidableEq, Repr

/-- The three firing conditions of one scheduler tick for one program:
exact HH:MM match, current month among the program months, due today. -/
def program_matches (c : Clock) (p : Program) : Bool :=
  c.hhmm == p.activation_time.getD "" &&
  is_program_active_in_current_month c.month p &&
  is_program_due_today c.yday p

/-- Per-program loop of program_manager.check_programs: the busy test reads
the program_manager flag, and a fired program is awaited to completion
before the next stored program is examined. -/
def check_programs_loop (f : Faults) (c : Clock) :
    List (String × Program) → SysState → SysState
  | [], st => st
  | (pid, p) :: rest, st =>
      if program_matches c p then
        if st.pmRunning then check_programs_loop f c rest st
        else
          let r := execute_program f none c.now c.today p false st
          let st2 := if r.1 then update_last_run_date c.today pid r.2 else r.2
          check_programs_loop f c rest st2
      else check_programs_loop f c rest st

/-- program_manager.check_programs(): one scheduler tick. -/
def check_programs (f : Faults) (c : Clock) (st : SysState) : SysState :=
  if ¬ st.autoEnabled then st
  else
    let programs := load_programs st.programsFile
    if programs.isEmpty then st
    else check_programs_loop f c programs st

/-- program_manager.update_program(program_id, updated_program): conflict
check first (excluding the target), then stop of a running target, then the
in-place update and save.  Returns ((success, error_message), state). -/
def update_program (f : Faults) (program_id : String) (updated : Program)
    (st : SysState) : (Bool × String) × SysState :=
  let programs := load_programs st.programsFile
  let c := check_program_conflicts updated programs (some program_id)
  if c.1 then ((false, c.2), st)
  else if (alookup programs program_id).isSome then
    let st1 := if st.pmRunning ∧ st.pmCurrent = some program_id then
                 (stop_program f st).2
               else st
    ((true, ""), { st1 with programsFile := aset programs program_id updated })
  else
    ((false, "Errore: Programma con ID " ++ program_id ++ " non trovato."), st)

/-! ### web_server save_program route (kernel part) -/

/-- Numeric parse of every stored id (int(pid)); none models the ValueError
path caught by the route. -/
def ids_as_nats (store : List (String × Program)) : Option (List Nat) :=
  store.mapM (fun kp => kp.1.toNat?)

/-- New id allocation of the save route: the literal string 1 on an empty
store, otherwise max of the numeric ids plus one, stringified. -/
def new_program_id (store : List (String × Program)) : Option String :=
  if store.isEmpty then some "1"
  else (ids_as_nats store).map (fun l => toString (l.foldl max 0 + 1))

/-- web_server.save_program_route, validation and store update only (the
HTTP envelope is outside the kernel).  Returns (error message if rejected,
state); a rejected call performs no write. -/
def save_program_route (p : Program) (st : SysState) :
    Option String × SysState :=
  if p.name.length > 16 then
    (some "Il nome del programma non puo superare 16 caratteri", st)
  else if p.months.isEmpty then
    (some "Seleziona almeno un mese per il programma", st)
  else if p.steps.isEmpty then
    (some "Seleziona almeno una zona per il programma", st)
  else
    let programs := load_programs st.programsFile
    if programs.any (fun kp => kp.2.name = p.name) then
      (some "Esiste gia un programma con questo nome", st)
    else if (check_program_conflicts p programs none).1 then
      (some (check_program_conflicts p programs none).2, st)
    else
      match new_program_id programs with
      | none => (some "Errore durante il salvataggio del programma", st)
      | some new_id =>
          let p2 := { p with id := some new_id }
          (none, { st with programsFile := aset programs new_id p2 })

/-! ### settings_manager document model -/

/-- WiFi or access-point credential pair. -/
structure Creds where
  ssid : String
  password : String
deriving DecidableEq, Repr

/-- One zone entry of the settings document, with every key optional as in
the stored JSON. -/
structure ZoneDoc where
  id : Option Int
  status : Option String
  pin : Option Int
  name : Option String
deriving DecidableEq, Repr

/-- The settings document with every top-level key optional; the
safety_relay sub-document is represented by its pin. -/
structure SettingsDoc where
  client_enabled : Option Bool
  wifi : Option Creds
  ap : Option Creds
  zones : Option (List ZoneDoc)
  max_active_zones : Option Int
  activation_delay : Option Int
  safety_relay : Option Int
  automatic_programs_enabled : Option Bool
  max_zone_duration : Option Int
deriving DecidableEq, Repr

/-- The zone list of FACTORY_SETTINGS: ids 0..7 on pins 14..21, all shown. -/
def factory_zones : List ZoneDoc :=
  [⟨some 0, some "show", some 14, some "Zona 1"⟩,
   ⟨some 1, some "show", some 15, some "Zona 2"⟩,
   ⟨some 2, some "show", some 16, some "Zona 3"⟩,
   ⟨some 3, some "show", some 17, some "Zona 4"⟩,
   ⟨some 4, some "show", some 18, some "Zona 5"⟩,
   ⟨some 5, some "show", some 19, some "Zona 6"⟩,
   ⟨some 6, some "show", some 20, some "Zona 7"⟩,
   ⟨some 7, some "show", some 21, some "Zona 8"⟩]

/-- settings_manager.FACTORY_SETTINGS. -/
def FACTORY_SETTINGS : SettingsDoc :=
  { client_enabled := some false,
    wifi := some ⟨"", ""⟩,
    ap := some ⟨"IrrigationSystem", "12345678"⟩,
    zones := some factory_zones,
    max_active_zones := some 3,
    activation_delay := some 5,
    safety_relay := some 13,
    automatic_programs_enabled := some false,
    max_zone_duration := some 180 }

/-- The setdefault block of load_user_settings; every literal default in
the source coincides with the corresponding FACTORY_SETTINGS value. -/
def load_setdefaults (s : SettingsDoc) : SettingsDoc :=
  { client_enabled := some (s.client_enabled.getD false),
    wifi := some (s.wifi.getD ⟨"", ""⟩),
    ap := some (s.ap.getD ⟨"IrrigationSystem", "12345678"⟩),
    zones := some (s.zones.getD factory_zones),
    max_active_zones := some (s.max_active_zones.getD 3),
    activation_delay := some (s.activation_delay.getD 5),
    safety_relay := some (s.safety_relay.getD 13),
    automatic_programs_enabled := some (s.automatic_programs_enabled.getD false),
    max_zone_duration := some (s.max_zone_duration.getD 180) }

/-- The fill-missing-keys loop of save_user_settings over
FACTORY_SETTINGS.items(). -/
def fill_factory_keys (s : SettingsDoc) : SettingsDoc :=
  { client_enabled := some (s.client_enabled.getD false),
    wifi := some (s.wifi.getD ⟨"", ""⟩),
    ap := some (s.ap.getD ⟨"IrrigationSystem", "12345678"⟩),
    zones := some (s.zones.getD factory_zones),
    max_active_zones := some (s.max_active_zones.getD 3),
    activation_delay := some (s.activation_delay.getD 5),
    safety_relay := some (s.safety_relay.getD 13),
    automatic_programs_enabled := some (s.automatic_programs_enabled.getD false),
    max_zone_duration := some (s.max_zone_duration.getD 180) }

/-- Zone normalisation of save_user_settings at index i: missing id
becomes i, missing status show, missing pin 14 + i, missing name
Zona (i+1). -/
def normalize_zone (i : Nat) (z : ZoneDoc) : ZoneDoc :=
  { id := some (z.id.getD (Int.ofNat i)),
    status := some (z.status.getD "show"),
    pin := some (z.pin.getD (14 + Int.ofNat i)),
    name := some (z.name.getD ("Zona " ++ toString (i + 1))) }

/-- settings_manager.save_user_settings: the document as persisted (the
top-level fill, then the per-index zone normalisation). -/
def save_user_settings (s : SettingsDoc) : SettingsDoc :=
  let s1 := fill_factory_keys s
  { s1 with zones := some ((s1.zones.getD []).enum.map
      (fun iz => normalize_zone iz.1 iz.2)) }

/-- settings_manager.load_user_settings over the stored document (none
models an unreadable or absent file): returns the resulting settings and
the store content after the call.  The readable branch applies the
setdefault upgrades and returns without writing; the unreadable branch
performs factory_reset, which persists the factory settings. -/
def load_user_settings (store : Option SettingsDoc) :
    SettingsDoc × Option SettingsDoc :=
  match store with
  | some d => (load_setdefaults d, some d)
  | none => (FACTORY_SETTINGS, some (save_user_settings FACTORY_SETTINGS))

/-! ### Concrete states and inputs used by witnesses and counterexamples -/

/-- Idle kernel state: two configured zones 0 and 1 (both off), safety relay
configured and off, no active zone, empty program store, factory-like
limits, automatic programs enabled. -/
def baseState : SysState :=
  { psRunning := false, psCurrent := none,
    pmRunning := false, pmCurrent := none,
    fileRunning := false, fileCurrent := none,
    zonePins := [0, 1], pinAsserted := [(0, false), (1, false)],
    safetyPresent := true, safetyOn := false,
    activeZones := [], nextTask := 0, cancelledTasks := [],
    programsFile := [],
    maxZoneDuration := 180, maxActiveZones := 3, activationDelay := 0,
    autoEnabled := true }

/-- Stored program 1: June, daily, 06:00, one 1-minute step on zone 0. -/
def progA : Program :=
  ⟨some "1", "A", ["Giugno"], some "giornaliero", none, some "06:00",
   [⟨some 0, some 1⟩], none⟩

/-- Stored program 2: June, daily, 06:00, one 1-minute step on zone 1. -/
def progB : Program :=
  ⟨some "2", "B", ["Giugno"], some "giornaliero", none, some "06:00",
   [⟨some 1, some 1⟩], none⟩

/-- A scheduler tick at 06:00 on 2024-06-15 (day 167 of a leap year). -/
def ck : Clock := ⟨"06:00", 6, 167, "2024-06-15", 1000⟩

/-- State in which the executor holds the running flag of program 1: the
program_manager module global is set but the program_state module global is
still false, exactly the configuration execute_program produces. -/
def stC1 : SysState :=
  { baseState with pmRunning := true, pmCurrent := some "1" }

/-- State with zone 0 active (record started at 10 for 5 minutes, timer
task 7) and the safety relay on. -/
def stC3 : SysState :=
  { baseState with activeZones := [(0, ⟨10, 5, 7⟩)],
                   pinAsserted := [(0, true), (1, false)],
                   safetyOn := true, nextTask := 8 }

/-- Two-step program (zones 0 and 1, one minute each) with no previous run
date. -/
def progC4 : Program :=
  ⟨some "1", "A", ["Giugno"], some "giornaliero", none, some "06:00",
   [⟨some 0, some 1⟩, ⟨some 1, some 1⟩], none⟩

/-- Idle state whose program store holds progC4 under id 1. -/
def stC4 : SysState := { baseState with programsFile := [("1", progC4)] }

/-- Idle state whose program store holds the two simultaneously matching
programs 1 and 2. -/
def stC5 : SysState :=
  { baseState with programsFile := [("1", progA), ("2", progB)] }

/-- Stored program occupying April and May. -/
def progApr : Program :=
  ⟨some "1", "A", ["Aprile", "Maggio"], some "giornaliero", none, some "06:00",
   [⟨some 0, some 1⟩], none⟩

/-- New program whose months May and June overlap progApr in May. -/
def progConf : Program :=
  ⟨none, "B", ["Maggio", "Giugno"], some "giornaliero", none, some "07:00",
   [⟨some 0, some 1⟩], none⟩

/-- Idle state whose program store holds progApr under id 1. -/
def stC6 : SysState := { baseState with programsFile := [("1", progApr)] }

/-- State with zone 0 active (record ⟨10, 3, 7⟩) at the concurrency limit
max_active_zones = 1. -/
def stC9 : SysState :=
  { baseState with activeZones := [(0, ⟨10, 3, 7⟩)],
                   pinAsserted := [(0, true), (1, false)],
                   safetyOn := true, nextTask := 8, maxActiveZones := 1 }

/-- Settings document with every key missing. -/
def emptyDoc : SettingsDoc :=
  ⟨none, none, none, none, none, none, none, none, none⟩

/-- Partial settings document: only client_enabled and a two-entry zone
list (first entry empty, second entry missing only its pin). -/
def partialDoc : SettingsDoc :=
  ⟨some true, none, none,
   some [⟨none, none, none, none⟩, ⟨some 9, some "hide", none, some "X"⟩],
   none, none, none, none, none⟩

/-! ### Helper lemmas on association lists -/

theorem alookup_aset_self {α β : Type} [DecidableEq α]
    (l : List (α × β)) (k : α) (v : β) : alookup (aset l k v) k = some v := by
  induction l with
  | nil => simp [aset, alookup]
  | cons h t ih =>
      by_cases hk : h.1 = k
      · simp [aset, hk, alookup]
      · simp [aset, hk, alookup, ih]

theorem alookup_aset_ne {α β : Type} [DecidableEq α]
    (l : List (α × β)) (k k2 : α) (v : β) (hne : ¬ (k = k2)) :
    alookup (aset l k v) k2 = alookup l k2 := by
  induction l with
  | nil => simp [aset, alookup, hne]
  | cons h t ih =>
      by_cases hk : h.1 = k
      · simp [aset, hk, alookup, hne]
      · simp [aset, hk, alookup, ih]

theorem length_aset_of_mem {α β : Type} [DecidableEq α]
    (l : List (α × β)) (k : α) (v v0 : β) (hmem : alookup l k = some v0) :
    (aset l k v).length = l.length := by
  induction l with
  | nil => simp [alookup] at hmem
  | cons h t ih =>
      by_cases hk : h.1 = k
      · simp [aset, hk]
      · simp [alookup, hk] at hmem
        simp [aset, hk, ih hmem]

theorem aset_isEmpty {α β : Type} [DecidableEq α]
    (l : List (α × β)) (k : α) (v : β) : (aset l k v).isEmpty = false := by
  cases l with
  | nil => simp [aset]
  | cons h t =>
      by_cases hk : h.1 = k
      · simp [aset, hk]
      · simp [aset, hk]

theorem isEmpty_false_of_alookup {α β : Type} [DecidableEq α]
    (l : List (α × β)) (k : α) (v : β) (hmem : alookup l k = some v) :
    l.isEmpty = false := by
  cases l with
  | nil => simp [alookup] at hmem
  | cons h t => simp

/-! ### Claim C1 -/

/-- C1: REFUTED ON THE CODE (code bug).  While the executor of program 1
holds the running flag (stC1.pmRunning = true, the program_manager module
global set by execute_program; the program_state module global psRunning is
false, its value in every reachable state because no caller of
save_program_state or assignment ever sets it to true), an external
start_zone(0, 5) is NOT rejected: it returns success and registers the
zone, because the busy test re-imports program_running from program_state.
The final conjunct shows the guard it evaluates is the program_state flag:
with psRunning forced true the same call is rejected. -/
theorem C1_busy_guard_reads_wrong_flag :
    stC1.pmRunning = true ∧
    (start_zone noFaults 100 stC1 0 5).1 = true ∧
    (alookup (start_zone noFaults 100 stC1 0 5).2.activeZones 0).isSome = true ∧
    (start_zone noFaults 100 { stC1 with psRunning := true } 0 5).1 = false := by
  decide

/-! ### Claim C2 -/

/-- C2, counterexample: a start_zone in which the safety-relay write
succeeds but the zone-pin write fails (fault on zone 0) returns failure
with the safety relay asserted and the active-zone table empty, so the
relay is NOT equivalent to table non-emptiness at every time. -/
theorem C2_counterexample :
    (start_zone ⟨[0], false⟩ 100 baseState 0 5).1 = false ∧
    (start_zone ⟨[0], false⟩ 100 baseState 0 5).2.activeZones = [] ∧
    (start_zone ⟨[0], false⟩ 100 baseState 0 5).2.safetyOn = true ∧
    ¬ ((start_zone ⟨[0], false⟩ 100 baseState 0 5).2.safetyOn
        = !(start_zone ⟨[0], false⟩ 100 baseState 0 5).2.activeZones.isEmpty) := by
  decide

/-! ### Claim C3 -/

/-- C3, counterexample: with zone 0 active and its de-assert write failing,
stop_zone(0) returns failure and leaves the whole state unchanged; in
particular zone 0 is still in the active-zone table, so the kernel still
records it as on. -/
theorem C3_counterexample :
    (stop_zone ⟨[0], false⟩ stC3 0).1 = false ∧
    (stop_zone ⟨[0], false⟩ stC3 0).2 = stC3 ∧
    (alookup (stop_zone ⟨[0], false⟩ stC3 0).2.activeZones 0).isSome = true := by
  decide

/-! ### Claim C4 -/

/-- C4: REFUTED ON THE CODE (code bug).  Executing the two-step program
progC4 with a stop_program request during the very first second (cancelAt
0) unwinds the step loop after starting only the first zone (nextTask = 1,
against 2 for the uncancelled run shown in the last conjunct), yet
update_last_run_date still runs: the stored last_run_date, previously
none, becomes today.  The claim (and the source docstring, which says True
means completed successfully) requires the date to stay unchanged on
cancellation. -/
theorem C4_cancelled_run_still_sets_date :
    progC4.last_run_date = none ∧
    progC4.steps.length = 2 ∧
    (execute_program noFaults (some 0) 1000 "2024-06-15" progC4 true stC4).2.nextTask = 1 ∧
    ((alookup (execute_program noFaults (some 0) 1000 "2024-06-15" progC4 true stC4).2.programsFile
        "1").map Program.last_run_date) = some (some "2024-06-15") ∧
    (execute_program noFaults none 1000 "2024-06-15" progC4 true stC4).2.nextTask = 2 := by
  decide

/-! ### Claim C5 -/

/-- C5, counterexample: in the tick ck both stored programs 1 and 2 match
all three firing conditions; the claim says only the first acquires the
flag and every later match is skipped, but program 2 also runs in the same
tick (its last_run_date is set, which check_programs does only after an
actual execution). -/
theorem C5_counterexample :
    program_matches ck progA = true ∧
    program_matches ck progB = true ∧
    stC5.pmRunning = false ∧
    ((alookup (check_programs noFaults ck stC5).programsFile "2").map
        Program.last_run_date) = some (some "2024-06-15") := by
  decide

/-! ### Claim C7 -/

/-- C7, counterexample: called in the idle state (no program running),
stop_program reports failure (False), not ok as the claim states. -/
theorem C7_counterexample :
    baseState.pmRunning = false ∧
    baseState.psRunning = false ∧
    (stop_program noFaults baseState).1 = false := by
  decide

/-! ### Claim C8 -/

/-- C8, counterexample: loading a readable settings document with every
key missing returns a document upgraded with the defaults
(max_active_zones becomes some 3) but the store still holds the original
partial document afterwards: the upgraded document is NOT re-saved. -/
theorem C8_counterexample :
    emptyDoc.max_active_zones = none ∧
    (load_user_settings (some emptyDoc)).1.max_active_zones = some 3 ∧
    (load_user_settings (some emptyDoc)).2 = some emptyDoc ∧
    ¬ ((load_user_settings (some emptyDoc)).2
        = some (load_user_settings (some emptyDoc)).1) := by
  decide

theorem norm_id_of_some {k : String} {q : Program} {i : String}
    (h : q.id = some i) : norm_id k q = q := by
  simp [norm_id, h]

theorem months_norm_id (k : String) (q : Program) :
    (norm_id k q).months = q.months := by
  cases h : q.id <;> simp [norm_id, h]

/-! ### Claim C7, amended -/

/-- C7, amended: in every state in which the program_state flag is false
(its value in every reachable state), stop_program reports failure — both
when idle, reporting that nothing was running, and when called during a
run — and its only effect is the rebinding performed by its local import,
which overwrites the program_manager running flag with false (this is what
makes the executor step loop unwind through its cleanup) and the
program_manager current id with the program_state one; no other field is
touched and none of its own cleanup runs. -/
theorem C7_stop_program_reports_failure (f : Faults) (st : SysState)
    (hps : st.psRunning = false) :
    (stop_program f st).1 = false ∧
    (stop_program f st).2
      = { st with pmRunning := false, pmCurrent := st.psCurrent } := by
  simp [stop_program, hps]

/-- C7, witness: instantiation at the running state stC1 (executor flag
set, program_state flag false): stop_program reports failure yet clears
the executor flag. -/
theorem C7_witness :
    stC1.psRunning = false ∧
    stC1.pmRunning = true ∧
    (stop_program noFaults stC1).1 = false ∧
    (stop_program noFaults stC1).2.pmRunning = false :=
  ⟨rfl, rfl, (C7_stop_program_reports_failure noFaults stC1 rfl).1, by
    rw [(C7_stop_program_reports_failure noFaults stC1 rfl).2]⟩

/-! ### Claim C3, amended -/

/-- C3, amended: for every configured zone whose de-assert GPIO write
fails, stop_zone aborts immediately with failure and leaves the entire
state unchanged — the active-zone entry is NOT removed (the kernel still
records the zone as on), the timer is not cancelled and the safety relay
is not updated. -/
theorem C3_failed_deassert_aborts (f : Faults) (st : SysState) (z : Int)
    (hcfg : st.zonePins.contains z = true)
    (hfail : f.zoneWriteFails.contains z = true) :
    stop_zone f st z = (false, st) := by
  have h1 : ¬ ¬ (st.zonePins.contains z = true) := not_not_intro hcfg
  simp only [stop_zone, if_neg h1, if_pos hfail]

/-- C3, witness: instantiation at stC3 (zone 0 active) with the write on
zone 0 failing. -/
theorem C3_witness :
    stC3.zonePins.contains 0 = true ∧
    (Faults.mk [0] false).zoneWriteFails.contains 0 = true ∧
    (alookup stC3.activeZones 0).isSome = true ∧
    stop_zone ⟨[0], false⟩ stC3 0 = (false, stC3) :=
  ⟨by decide, by decide, by decide,
   C3_failed_deassert_aborts ⟨[0], false⟩ stC3 0 (by decide) (by decide)⟩

/-! ### Claim C2, amended: safety relay versus active-zone table -/

theorem aset_ne_nil {α β : Type} [DecidableEq α]
    (l : List (α × β)) (k : α) (v : β) : ¬ (aset l k v = []) := by
  cases l with
  | nil => simp [aset]
  | cons h t =>
      by_cases hk : h.1 = k
      · simp [aset, hk]
      · simp [aset, hk]

theorem start_zone_safety (now : Nat) (st : SysState) (z d : Int)
    (hsp : st.safetyPresent = true)
    (hinv : st.safetyOn = !st.activeZones.isEmpty) :
    ((start_zone noFaults now st z d).2.safetyOn
        = !(start_zone noFaults now st z d).2.activeZones.isEmpty) ∧
    (¬ ((start_zone noFaults now st z d).2.safetyOn = st.safetyOn) →
        st.activeZones.isEmpty = true ∧
        (start_zone noFaults now st z d).2.activeZones.isEmpty = false) := by
  by_cases h1 : st.psRunning
  · simp [start_zone, h1, hinv]
  · by_cases h2 : st.zonePins.contains z
    · have h2m : z ∈ st.zonePins := by simpa using h2
      by_cases h3 : d ≤ 0 ∨ d > st.maxZoneDuration
      · simp [start_zone, h1, h2, h3, hinv]
      · cases hm : alookup st.activeZones z with
        | none =>
            by_cases hcap : (st.activeZones.length : Int) ≥ st.maxActiveZones
            · simp [start_zone, h1, h2, h2m, h3, hm, hcap, hinv]
            · by_cases h5 : st.activeZones.isEmpty
              · simp [start_zone, h1, h2, h2m, h3, hm, hcap, h5, hsp, noFaults,
                      aset_isEmpty, aset_ne_nil, hinv]
              · simp [start_zone, h1, h2, h2m, h3, hm, hcap, h5, hsp, noFaults,
                      aset_isEmpty, aset_ne_nil, hinv]
        | some r =>
            have h6 := isEmpty_false_of_alookup _ _ _ hm
            simp [start_zone, h1, h2, h2m, h3, hm, h6, hsp, noFaults,
                  aset_isEmpty, aset_ne_nil, hinv]
    · have h2m : ¬ (z ∈ st.zonePins) := by simpa using h2
      simp [start_zone, h1, h2, h2m, hinv]

theorem stop_zone_safety (st : SysState) (z : Int)
    (hsp : st.safetyPresent = true)
    (hinv : st.safetyOn = !st.activeZones.isEmpty) :
    ((stop_zone noFaults st z).2.safetyOn
        = !(stop_zone noFaults st z).2.activeZones.isEmpty) ∧
    (¬ ((stop_zone noFaults st z).2.safetyOn = st.safetyOn) →
        st.activeZones.isEmpty = false ∧
        (stop_zone noFaults st z).2.activeZones.isEmpty = true) := by
  by_cases h1 : st.zonePins.contains z
  · have h1m : z ∈ st.zonePins := by simpa using h1
    cases hm : alookup st.activeZones z with
    | none =>
        by_cases h5 : st.activeZones.isEmpty
        · simp [stop_zone, h1, h1m, hm, h5, hsp, noFaults, hinv]
        · simp [stop_zone, h1, h1m, hm, h5, hsp, noFaults, hinv]
    | some r =>
        have h6 := isEmpty_false_of_alookup _ _ _ hm
        by_cases h5 : (aerase st.activeZones z).isEmpty
        · simp [stop_zone, h1, h1m, hm, h5, h6, hsp, noFaults, hinv]
        · simp [stop_zone, h1, h1m, hm, h5, h6, hsp, noFaults, hinv]
  · have h1m : ¬ (z ∈ st.zonePins) := by simpa using h1
    simp [stop_zone, h1, h1m, hinv]

/-- C2, amended: with the safety relay configured and in the absence of
GPIO write failures, the relay-table equivalence (relay on iff the
active-zone table is non-empty) is preserved by every start_zone and
stop_zone call, and the relay output changes only across the
empty-to-non-empty transition (start_zone) and the non-empty-to-empty
transition (stop_zone).  With a failing write the equivalence can break:
see the counterexample. -/
theorem C2_safety_relay_iff_active (now : Nat) (st : SysState) (z d : Int)
    (hsp : st.safetyPresent = true)
    (hinv : st.safetyOn = !st.activeZones.isEmpty) :
    (((start_zone noFaults now st z d).2.safetyOn
        = !(start_zone noFaults now st z d).2.activeZones.isEmpty) ∧
     (¬ ((start_zone noFaults now st z d).2.safetyOn = st.safetyOn) →
        st.activeZones.isEmpty = true ∧
        (start_zone noFaults now st z d).2.activeZones.isEmpty = false)) ∧
    (((stop_zone noFaults st z).2.safetyOn
        = !(stop_zone noFaults st z).2.activeZones.isEmpty) ∧
     (¬ ((stop_zone noFaults st z).2.safetyOn = st.safetyOn) →
        st.activeZones.isEmpty = false ∧
        (stop_zone noFaults st z).2.activeZones.isEmpty = true)) :=
  ⟨start_zone_safety now st z d hsp hinv, stop_zone_safety st z hsp hinv⟩

/-- C2, witness: instantiation at the idle state baseState (relay off,
empty table) with a valid start_zone(0, 5): the equivalence holds after
the call. -/
theorem C2_witness :
    baseState.safetyPresent = true ∧
    baseState.safetyOn = !baseState.activeZones.isEmpty ∧
    ((start_zone noFaults 100 baseState 0 5).2.safetyOn
      = !(start_zone noFaults 100 baseState 0 5).2.activeZones.isEmpty) ∧
    ((stop_zone noFaults baseState 0).2.safetyOn
      = !(stop_zone noFaults baseState 0).2.activeZones.isEmpty) :=
  ⟨rfl, by decide,
   (C2_safety_relay_iff_active 100 baseState 0 5 rfl (by decide)).1.1,
   (C2_safety_relay_iff_active 100 baseState 0 5 rfl (by decide)).2.1⟩

/-! ### Frame lemmas: fields untouched by the actuator and executor -/

theorem start_zone_frame (f : Faults) (now : Nat) (st : SysState) (z d : Int) :
    (start_zone f now st z d).2.psRunning = st.psRunning ∧
    (start_zone f now st z d).2.pmRunning = st.pmRunning ∧
    (start_zone f now st z d).2.programsFile = st.programsFile := by
  simp only [start_zone]
  repeat' split
  all_goals exact ⟨rfl, rfl, rfl⟩

theorem stop_zone_frame (f : Faults) (st : SysState) (z : Int) :
    (stop_zone f st z).2.psRunning = st.psRunning ∧
    (stop_zone f st z).2.pmRunning = st.pmRunning ∧
    (stop_zone f st z).2.programsFile = st.programsFile := by
  simp only [stop_zone]
  repeat' split
  all_goals exact ⟨rfl, rfl, rfl⟩

theorem stop_all_fold_frame (f : Faults) (zs : List Int) :
    ∀ acc : Bool × SysState,
      (stop_all_fold f zs acc).2.psRunning = acc.2.psRunning ∧
      (stop_all_fold f zs acc).2.pmRunning = acc.2.pmRunning ∧
      (stop_all_fold f zs acc).2.programsFile = acc.2.programsFile := by
  induction zs with
  | nil => intro acc; exact ⟨rfl, rfl, rfl⟩
  | cons z zs ih =>
      intro acc
      have h1 := stop_zone_frame f acc.2 z
      have h2 := ih (acc.1 && (stop_zone f acc.2 z).1, (stop_zone f acc.2 z).2)
      simp only [stop_all_fold]
      exact ⟨h2.1.trans h1.1, h2.2.1.trans h1.2.1, h2.2.2.trans h1.2.2⟩

theorem stop_all_zones_frame (f : Faults) (st : SysState) :
    (stop_all_zones f st).2.psRunning = st.psRunning ∧
    (stop_all_zones f st).2.pmRunning = st.pmRunning ∧
    (stop_all_zones f st).2.programsFile = st.programsFile := by
  simp only [stop_all_zones]
  split
  · exact ⟨rfl, rfl, rfl⟩
  · exact stop_all_fold_frame f (st.activeZones.map Prod.fst) (true, st)


theorem start_zone_ps (f : Faults) (now : Nat) (st : SysState) (z d : Int) :
    (start_zone f now st z d).2.psRunning = st.psRunning :=
  (start_zone_frame f now st z d).1

theorem start_zone_file (f : Faults) (now : Nat) (st : SysState) (z d : Int) :
    (start_zone f now st z d).2.programsFile = st.programsFile :=
  (start_zone_frame f now st z d).2.2

theorem stop_zone_ps (f : Faults) (st : SysState) (z : Int) :
    (stop_zone f st z).2.psRunning = st.psRunning :=
  (stop_zone_frame f st z).1

theorem stop_zone_file (f : Faults) (st : SysState) (z : Int) :
    (stop_zone f st z).2.programsFile = st.programsFile :=
  (stop_zone_frame f st z).2.2

theorem stop_all_zones_ps (f : Faults) (st : SysState) :
    (stop_all_zones f st).2.psRunning = st.psRunning :=
  (stop_all_zones_frame f st).1

theorem stop_all_zones_pm (f : Faults) (st : SysState) :
    (stop_all_zones f st).2.pmRunning = st.pmRunning :=
  (stop_all_zones_frame f st).2.1

theorem stop_all_zones_file (f : Faults) (st : SysState) :
    (stop_all_zones f st).2.programsFile = st.programsFile :=
  (stop_all_zones_frame f st).2.2

theorem stop_program_frame (f : Faults) (st : SysState) :
    (stop_program f st).2.psRunning = st.psRunning ∧
    (stop_program f st).2.pmRunning = false ∧
    (stop_program f st).2.programsFile = st.programsFile := by
  by_cases h : st.psRunning
  · simp only [stop_program]
    rw [if_neg]
    · exact ⟨(stop_all_zones_frame f _).1, (stop_all_zones_frame f _).2.1,
             (stop_all_zones_frame f _).2.2⟩
    · simp [h]
  · simp [stop_program, h]

theorem stop_program_ps (f : Faults) (st : SysState) :
    (stop_program f st).2.psRunning = st.psRunning :=
  (stop_program_frame f st).1

theorem stop_program_file (f : Faults) (st : SysState) :
    (stop_program f st).2.programsFile = st.programsFile :=
  (stop_program_frame f st).2.2

theorem sleep_tick_ps (f : Faults) (cancelAt : Option Nat) (tick : Nat)
    (st : SysState) :
    (sleep_tick f cancelAt tick st).psRunning = st.psRunning := by
  simp only [sleep_tick]
  split
  · exact stop_program_ps f st
  · rfl

theorem sleep_tick_file (f : Faults) (cancelAt : Option Nat) (tick : Nat)
    (st : SysState) :
    (sleep_tick f cancelAt tick st).programsFile = st.programsFile := by
  simp only [sleep_tick]
  split
  · exact stop_program_file f st
  · rfl

theorem wait_loop_ps (f : Faults) (cancelAt : Option Nat) (n : Nat) :
    ∀ (tick : Nat) (st : SysState),
      (wait_loop f cancelAt n tick st).2.psRunning = st.psRunning := by
  induction n with
  | zero => intro tick st; rfl
  | succ n ih =>
      intro tick st
      simp only [wait_loop]
      split
      · rfl
      · rw [ih (tick + 1) (sleep_tick f cancelAt tick st)]
        exact sleep_tick_ps f cancelAt tick st

theorem wait_loop_file (f : Faults) (cancelAt : Option Nat) (n : Nat) :
    ∀ (tick : Nat) (st : SysState),
      (wait_loop f cancelAt n tick st).2.programsFile = st.programsFile := by
  induction n with
  | zero => intro tick st; rfl
  | succ n ih =>
      intro tick st
      simp only [wait_loop]
      split
      · rfl
      · rw [ih (tick + 1) (sleep_tick f cancelAt tick st)]
        exact sleep_tick_file f cancelAt tick st

theorem exec_steps_ps (f : Faults) (cancelAt : Option Nat) (now : Nat)
    (delay : Int) (total : Nat) (l : List (Nat × Step)) :
    ∀ (tick : Nat) (st : SysState),
      (exec_steps f cancelAt now delay total l tick st).2.psRunning
        = st.psRunning := by
  induction l with
  | nil => intro tick st; rfl
  | cons hd tl ih =>
      intro tick st
      obtain ⟨i, step⟩ := hd
      simp only [exec_steps]
      split
      · rfl
      · split
        · exact ih tick st
        · simp [ih, start_zone_ps, stop_zone_ps, wait_loop_ps]
          repeat' split
          all_goals simp [ih, start_zone_ps, stop_zone_ps, wait_loop_ps]

theorem exec_steps_file (f : Faults) (cancelAt : Option Nat) (now : Nat)
    (delay : Int) (total : Nat) (l : List (Nat × Step)) :
    ∀ (tick : Nat) (st : SysState),
      (exec_steps f cancelAt now delay total l tick st).2.programsFile
        = st.programsFile := by
  induction l with
  | nil => intro tick st; rfl
  | cons hd tl ih =>
      intro tick st
      obtain ⟨i, step⟩ := hd
      simp only [exec_steps]
      split
      · rfl
      · split
        · exact ih tick st
        · simp [ih, start_zone_file, stop_zone_file, wait_loop_file]
          repeat' split
          all_goals simp [ih, start_zone_file, stop_zone_file, wait_loop_file]


/-- Mainline behaviour of execute_program when the program_state flag is
false (every reachable state): the call reports success, leaves both
running flags false, and its only effect on the program store is
update_last_run_date applied to the program own id. -/
theorem execute_program_run (f : Faults) (cancelAt : Option Nat) (now : Nat)
    (today : String) (p : Program) (manual : Bool) (st : SysState)
    (hps : st.psRunning = false) :
    (execute_program f cancelAt now today p manual st).1 = true ∧
    (execute_program f cancelAt now today p manual st).2.pmRunning = false ∧
    (execute_program f cancelAt now today p manual st).2.psRunning = false ∧
    (execute_program f cancelAt now today p manual st).2.programsFile
      = upd_file today (p.id.getD "0") st.programsFile := by
  have h0 : ¬ (({ st with pmRunning := st.psRunning,
                          pmCurrent := st.psCurrent } : SysState).pmRunning
                 = true) := by simp [hps]
  refine ⟨?_, ?_, ?_, ?_⟩
  · simp only [execute_program]
    rw [if_neg h0]
  · simp only [execute_program]
    rw [if_neg h0]
    exact stop_all_zones_pm f _
  · simp only [execute_program]
    rw [if_neg h0]
    rw [stop_all_zones_ps]
    simp only [save_program_state, update_last_run_date]
    rw [exec_steps_ps]
    simp only [save_program_state]
    rw [stop_all_zones_ps]
    split
    · rw [stop_all_zones_ps]
      exact hps
    · exact hps
  · simp only [execute_program]
    rw [if_neg h0]
    rw [stop_all_zones_file]
    simp only [save_program_state, update_last_run_date]
    rw [exec_steps_file]
    simp only [save_program_state]
    rw [stop_all_zones_file]
    split
    · rw [stop_all_zones_file]
    · rfl

theorem upd_file_two_left (t idA idB : String) (p q : Program)
    (hp : p.id = some idA) (hq : q.id = some idB) :
    upd_file t idA [(idA, p), (idB, q)]
      = [(idA, { p with last_run_date := some t }), (idB, q)] := by
  simp [upd_file, load_programs, norm_id_of_some hp, norm_id_of_some hq,
        alookup, aset]

theorem upd_file_two_right (t idA idB : String) (p q : Program)
    (hp : p.id = some idA) (hq : q.id = some idB) (hne : ¬ (idA = idB)) :
    upd_file t idB [(idA, p), (idB, q)]
      = [(idA, p), (idB, { q with last_run_date := some t })] := by
  simp [upd_file, load_programs, norm_id_of_some hp, norm_id_of_some hq,
        alookup, aset, hne]

theorem update_last_run_date_ps (t pid : String) (st : SysState) :
    (update_last_run_date t pid st).psRunning = st.psRunning := rfl

theorem update_last_run_date_pm (t pid : String) (st : SysState) :
    (update_last_run_date t pid st).pmRunning = st.pmRunning := rfl
/-- C5, amended: check_programs examines the stored programs in the order
of the store, not sorted by numeric id, and fires every one of them that
matches the three conditions: each matching program is executed to
completion before the loop advances (execute_program is awaited), and
since the executor clears the program_manager flag on exit, the busy test
at the next match sees false again — so every later match in the same
tick also runs (here: both stored programs end the tick with last_run_date
set to today), instead of being skipped.  The busy test only skips matches
while a run started outside this loop is still holding the flag. -/
theorem C5_amended (f : Faults) (c : Clock) (st : SysState)
    (idA idB : String) (pA pB : Program)
    (hstore : st.programsFile = [(idA, pA), (idB, pB)])
    (hidA : pA.id = some idA) (hidB : pB.id = some idB)
    (hne : ¬ (idA = idB))
    (hmA : program_matches c pA = true) (hmB : program_matches c pB = true)
    (hauto : st.autoEnabled = true) (hpm : st.pmRunning = false)
    (hps : st.psRunning = false) :
    (alookup (check_programs f c st).programsFile idA).map Program.last_run_date
      = some (some c.today) ∧
    (alookup (check_programs f c st).programsFile idB).map Program.last_run_date
      = some (some c.today) := by
  have hload : load_programs st.programsFile = [(idA, pA), (idB, pB)] := by
    rw [hstore]
    simp [load_programs, norm_id_of_some hidA, norm_id_of_some hidB]
  have hA := execute_program_run f none c.now c.today pA false st hps
  have hA1 : (execute_program f none c.now c.today pA false st).2.programsFile
      = [(idA, { pA with last_run_date := some c.today }), (idB, pB)] := by
    rw [hA.2.2.2]
    rw [hidA]
    show upd_file c.today idA st.programsFile = _
    rw [hstore, upd_file_two_left c.today idA idB pA pB hidA hidB]
    simp [hidA]
  have hidA1 : ({ pA with last_run_date := some c.today } : Program).id = some idA := hidA
  -- state after the first match has been handled by the loop
  have hst2 : (update_last_run_date c.today idA
        (execute_program f none c.now c.today pA false st).2).programsFile
      = [(idA, { pA with last_run_date := some c.today }), (idB, pB)] := by
    simp only [update_last_run_date]
    rw [hA1, upd_file_two_left c.today idA idB _ pB hidA1 hidB]
  have hst2ps : (update_last_run_date c.today idA
        (execute_program f none c.now c.today pA false st).2).psRunning = false := by
    rw [update_last_run_date_ps]; exact hA.2.2.1
  have hst2pm : (update_last_run_date c.today idA
        (execute_program f none c.now c.today pA false st).2).pmRunning = false := by
    rw [update_last_run_date_pm]; exact hA.2.1
  have hB := execute_program_run f none c.now c.today pB false
      (update_last_run_date c.today idA
        (execute_program f none c.now c.today pA false st).2) hst2ps
  have hB1 : (execute_program f none c.now c.today pB false
        (update_last_run_date c.today idA
          (execute_program f none c.now c.today pA false st).2)).2.programsFile
      = [(idA, { pA with last_run_date := some c.today }),
         (idB, { pB with last_run_date := some c.today })] := by
    rw [hB.2.2.2, hidB]
    show upd_file c.today idB _ = _
    rw [hst2, upd_file_two_right c.today idA idB _ pB hidA1 hidB hne]
    simp [hidB]
  have hidB1 : ({ pB with last_run_date := some c.today } : Program).id = some idB := hidB
  have hst4 : (update_last_run_date c.today idB
        (execute_program f none c.now c.today pB false
          (update_last_run_date c.today idA
            (execute_program f none c.now c.today pA false st).2)).2).programsFile
      = [(idA, { pA with last_run_date := some c.today }),
         (idB, { pB with last_run_date := some c.today })] := by
    show upd_file c.today idB _ = _
    rw [hB1, upd_file_two_right c.today idA idB _ _ hidA1 hidB1 hne]
  have hfile : (check_programs f c st).programsFile
      = [(idA, { pA with last_run_date := some c.today }),
         (idB, { pB with last_run_date := some c.today })] := by
    have hcp : check_programs f c st
        = check_programs_loop f c [(idA, pA), (idB, pB)] st := by
      simp [check_programs, hauto, hload]
    rw [hcp]
    simp only [check_programs_loop, hmA, hmB, hpm, hA.1, hB.1, hst2pm,
               if_true, if_false, Bool.false_eq_true, ite_false, ite_true]
    exact hst4
  constructor
  · rw [hfile]
    simp [alookup]
  · rw [hfile]
    simp [alookup, hne]

/-- C5, witness: instantiation at the two-program store stC5 in the tick
ck: both program 1 and program 2 run. -/
theorem C5_witness :
    program_matches ck progA = true ∧
    program_matches ck progB = true ∧
    (alookup (check_programs noFaults ck stC5).programsFile "1").map
        Program.last_run_date = some (some "2024-06-15") ∧
    (alookup (check_programs noFaults ck stC5).programsFile "2").map
        Program.last_run_date = some (some "2024-06-15") := by
  have h := C5_amended noFaults ck stC5 "1" "2" progA progB rfl rfl rfl
      (by decide) (by decide) (by decide) rfl rfl rfl
  exact ⟨by decide, by decide, h.1, h.2⟩

theorem conflicts_loop_true (p : Program) (ex : Option String) :
    ∀ (l : List (String × Program)) (k : String) (q : Program),
      (k, q) ∈ l →
      months_intersect p.months q.months = true →
      skip_check ex k = false →
      (conflicts_loop p ex l).1 = true := by
  intro l
  induction l with
  | nil => intro k q h _ _; simp at h
  | cons a t ih =>
      intro k q hmem hint hskip
      obtain ⟨pid, exg⟩ := a
      simp only [conflicts_loop]
      by_cases hcond : skip_check ex pid = true
      · rw [if_pos hcond]
        rcases List.mem_cons.mp hmem with heq | htail
        · injection heq with h1 h2
          subst h1
          rw [hskip] at hcond
          exact absurd hcond (by simp)
        · exact ih k q htail hint hskip
      · rw [if_neg hcond]
        by_cases hi : months_intersect p.months exg.months = true
        · rw [if_pos hi]
        · rw [if_neg hi]
          rcases List.mem_cons.mp hmem with heq | htail
          · injection heq with h1 h2
            subst h2
            exact absurd hint hi
          · exact ih k q htail hint hskip

theorem check_program_conflicts_true (p : Program) (ex : Option String)
    (l : List (String × Program)) (k : String) (q : Program)
    (hmem : (k, q) ∈ l)
    (hint : months_intersect p.months q.months = true)
    (hskip : skip_check ex k = false) :
    (check_program_conflicts p l ex).1 = true := by
  have hm : p.months.isEmpty = false := by
    cases hms : p.months with
    | nil => rw [hms] at hint; simp [months_intersect] at hint
    | cons a b => rfl
  unfold check_program_conflicts
  rw [if_neg (by simp [hm])]
  exact conflicts_loop_true p ex l k q hmem hint hskip

/-! ### Claim C6 -/

/-- C6: for every new program whose months intersect the months of some
stored program, the save route rejects the request (with one of its
validation errors, the month-conflict one when no earlier validation
failed first) and leaves the entire state — in particular the program
store — exactly as it was; and update_program against any other stored id
likewise fails with the conflict message and leaves the state unchanged. -/
theorem C6_month_conflict_rejected (f : Faults) (st : SysState)
    (p q : Program) (k pid : String)
    (hmem : (k, q) ∈ st.programsFile)
    (hint : months_intersect p.months q.months = true) :
    ((save_program_route p st).1.isSome = true ∧
     (save_program_route p st).2 = st) ∧
    (¬ (k = pid) →
       (update_program f pid p st).1.1 = false ∧
       (update_program f pid p st).2 = st) := by
  have hmem2 : (k, norm_id k q) ∈ load_programs st.programsFile := by
    have h := List.mem_map_of_mem
      (fun kp : String × Program => (kp.1, norm_id kp.1 kp.2)) hmem
    simpa [load_programs] using h
  have hint2 : months_intersect p.months (norm_id k q).months = true := by
    rw [months_norm_id]; exact hint
  constructor
  · have hc : (check_program_conflicts p (load_programs st.programsFile)
        none).1 = true :=
      check_program_conflicts_true p none _ k _ hmem2 hint2 rfl
    simp only [save_program_route]
    split_ifs with h1 h2 h3 h4
    · exact ⟨rfl, rfl⟩
    · exact ⟨rfl, rfl⟩
    · exact ⟨rfl, rfl⟩
    · exact ⟨rfl, rfl⟩
    · exact ⟨rfl, rfl⟩
  · intro hkpid
    have hbeq : (k == pid) = false := by
      simp [hkpid]
    have hskip : skip_check (some pid) k = false := by
      simp [skip_check, hbeq]
    have hc : (check_program_conflicts p (load_programs st.programsFile)
        (some pid)).1 = true :=
      check_program_conflicts_true p (some pid) _ k _ hmem2 hint2 hskip
    simp only [update_program]
    rw [if_pos hc]
    exact ⟨rfl, rfl⟩

/-- C6, witness: the store stC6 holds program 1 occupying April and May;
saving progConf (May and June) is rejected with the store untouched, and
updating program 5 with progConf is likewise rejected. -/
theorem C6_witness :
    ("1", progApr) ∈ stC6.programsFile ∧
    months_intersect progConf.months progApr.months = true ∧
    (save_program_route progConf stC6).1.isSome = true ∧
    (save_program_route progConf stC6).2 = stC6 ∧
    (update_program noFaults "5" progConf stC6).1.1 = false ∧
    (update_program noFaults "5" progConf stC6).2 = stC6 := by
  have h := C6_month_conflict_rejected noFaults stC6 progConf progApr "1" "5"
      (by decide) (by decide)
  exact ⟨by decide, by decide, h.1.1, h.1.2,
         (h.2 (by decide)).1, (h.2 (by decide)).2⟩
/-- C9: a successful start_zone on an already-active zone (record r0)
leaves the safety relay untouched, cancels the previous auto-stop timer
(r0.task joins the cancelled set), replaces the zone record with a fresh
start time, the new duration and the newly created timer task, keeps the
active-zone count unchanged, and leaves every other zone record and every
other zone pin unchanged. -/
theorem C9_restart_active_zone (f : Faults) (now : Nat) (st : SysState)
    (z d : Int) (r0 : ActiveRec)
    (hact : alookup st.activeZones z = some r0)
    (hok : (start_zone f now st z d).1 = true) :
    (start_zone f now st z d).2.safetyOn = st.safetyOn ∧
    r0.task ∈ (start_zone f now st z d).2.cancelledTasks ∧
    alookup (start_zone f now st z d).2.activeZones z
      = some ⟨now, d, st.nextTask⟩ ∧
    (start_zone f now st z d).2.activeZones.length
      = st.activeZones.length ∧
    (∀ z2, ¬ (z2 = z) →
      alookup (start_zone f now st z d).2.activeZones z2
        = alookup st.activeZones z2) ∧
    (∀ z2, ¬ (z2 = z) →
      alookup (start_zone f now st z d).2.pinAsserted z2
        = alookup st.pinAsserted z2) := by
  by_cases h1 : st.psRunning
  · simp [start_zone, h1] at hok
  · by_cases h2 : st.zonePins.contains z
    · by_cases h3 : d ≤ 0 ∨ d > st.maxZoneDuration
      · simp [start_zone, h1, h2, h3] at hok
      · have h6 := isEmpty_false_of_alookup _ _ _ hact
        by_cases h5 : f.zoneWriteFails.contains z
        · have h5m : z ∈ f.zoneWriteFails := by simpa using h5
          simp [start_zone, h1, h2, h3, hact, h6, h5, h5m] at hok
        · have h2m : z ∈ st.zonePins := by simpa using h2
          have h5m : ¬ (z ∈ f.zoneWriteFails) := by simpa using h5
          have hlen := length_aset_of_mem st.activeZones z
            (⟨now, d, st.nextTask⟩ : ActiveRec) r0 hact
          refine ⟨?_, ?_, ?_, ?_, ?_, ?_⟩
          · simp [start_zone, h1, h2, h2m, h3, hact, h6, h5, h5m]
          · simp [start_zone, h1, h2, h2m, h3, hact, h6, h5, h5m]
          · simp [start_zone, h1, h2, h2m, h3, hact, h6, h5, h5m,
                  alookup_aset_self]
          · simp [start_zone, h1, h2, h2m, h3, hact, h6, h5, h5m, hlen]
          · intro z2 hne
            have hne2 : ¬ (z = z2) := fun h => hne h.symm
            simp [start_zone, h1, h2, h2m, h3, hact, h6, h5, h5m,
                  alookup_aset_ne _ _ _ _ hne2]
          · intro z2 hne
            have hne2 : ¬ (z = z2) := fun h => hne h.symm
            simp [start_zone, h1, h2, h2m, h3, hact, h6, h5, h5m,
                  alookup_aset_ne _ _ _ _ hne2]
    · have h2m : ¬ (z ∈ st.zonePins) := by simpa using h2
      simp [start_zone, h1, h2, h2m] at hok

/-- C9, witness: at stC9 (zone 0 active with record start 10, duration 3,
task 7, at the concurrency limit) start_zone(0, 5) succeeds and shows all
the listed effects. -/
theorem C9_witness :
    alookup stC9.activeZones 0 = some ⟨10, 3, 7⟩ ∧
    (start_zone noFaults 100 stC9 0 5).1 = true ∧
    (start_zone noFaults 100 stC9 0 5).2.safetyOn = stC9.safetyOn ∧
    (7 : Nat) ∈ (start_zone noFaults 100 stC9 0 5).2.cancelledTasks ∧
    alookup (start_zone noFaults 100 stC9 0 5).2.activeZones 0
      = some ⟨100, 5, 8⟩ ∧
    (start_zone noFaults 100 stC9 0 5).2.activeZones.length
      = stC9.activeZones.length := by
  have h := C9_restart_active_zone noFaults 100 stC9 0 5 ⟨10, 3, 7⟩
      (by decide) (by decide)
  exact ⟨by decide, by decide, h.1, h.2.1, h.2.2.1, h.2.2.2.1⟩
/-! ### Claim C8, amended, and claim C10 -/

/-- C8, amended: loading a readable settings document returns it with
every missing key filled by the corresponding default (each setdefault
literal coincides with the FACTORY_SETTINGS value), but the store is left
holding the original partial document — the upgraded document is NOT
re-saved.  Only the unreadable branch rewrites the store, via
factory_reset, with the persisted factory settings. -/
theorem C8_load_fills_without_resave (d : SettingsDoc) :
    (load_user_settings (some d)).2 = some d ∧
    (load_user_settings (some d)).1.client_enabled
      = some (d.client_enabled.getD false) ∧
    (load_user_settings (some d)).1.wifi = some (d.wifi.getD ⟨"", ""⟩) ∧
    (load_user_settings (some d)).1.ap
      = some (d.ap.getD ⟨"IrrigationSystem", "12345678"⟩) ∧
    (load_user_settings (some d)).1.zones = some (d.zones.getD factory_zones) ∧
    (load_user_settings (some d)).1.max_active_zones
      = some (d.max_active_zones.getD 3) ∧
    (load_user_settings (some d)).1.activation_delay
      = some (d.activation_delay.getD 5) ∧
    (load_user_settings (some d)).1.safety_relay
      = some (d.safety_relay.getD 13) ∧
    (load_user_settings (some d)).1.automatic_programs_enabled
      = some (d.automatic_programs_enabled.getD false) ∧
    (load_user_settings (some d)).1.max_zone_duration
      = some (d.max_zone_duration.getD 180) ∧
    load_user_settings none
      = (FACTORY_SETTINGS, some (save_user_settings FACTORY_SETTINGS)) :=
  ⟨rfl, rfl, rfl, rfl, rfl, rfl, rfl, rfl, rfl, rfl, rfl⟩

/-- C10: save_user_settings normalises before persisting: every missing
top-level key of the input is filled with the factory value (so the
persisted document carries all factory keys, each one some value), a
missing zones key receives the factory zone list unchanged, and the zone
entry at index i gets a missing id set to i, a missing status set to show,
a missing pin set to 14 + i and a missing name set to Zona (i+1), with
present zone keys kept. -/
theorem C10_save_settings_normalises (s : SettingsDoc) :
    (save_user_settings s).client_enabled
      = some (s.client_enabled.getD false) ∧
    (save_user_settings s).wifi = some (s.wifi.getD ⟨"", ""⟩) ∧
    (save_user_settings s).ap
      = some (s.ap.getD ⟨"IrrigationSystem", "12345678"⟩) ∧
    (save_user_settings s).max_active_zones
      = some (s.max_active_zones.getD 3) ∧
    (save_user_settings s).activation_delay
      = some (s.activation_delay.getD 5) ∧
    (save_user_settings s).safety_relay = some (s.safety_relay.getD 13) ∧
    (save_user_settings s).automatic_programs_enabled
      = some (s.automatic_programs_enabled.getD false) ∧
    (save_user_settings s).max_zone_duration
      = some (s.max_zone_duration.getD 180) ∧
    (save_user_settings s).zones.isSome = true ∧
    (s.zones = none → (save_user_settings s).zones = some factory_zones) ∧
    (∀ zs, s.zones = some zs →
      ∀ i : Nat,
        ((save_user_settings s).zones.getD []).get? i
          = (zs.get? i).map (fun z =>
              { id := some (z.id.getD (Int.ofNat i)),
                status := some (z.status.getD "show"),
                pin := some (z.pin.getD (14 + Int.ofNat i)),
                name := some (z.name.getD ("Zona " ++ toString (i + 1))) })) := by
  refine ⟨rfl, rfl, rfl, rfl, rfl, rfl, rfl, rfl, rfl, ?_, ?_⟩
  · intro hz
    simp [save_user_settings, fill_factory_keys, hz]
    decide
  · intro zs hz i
    simp only [save_user_settings, fill_factory_keys, hz, Option.getD_some]
    rw [List.get?_map, List.get?_enum]
    cases hzi : zs.get? i with
    | none => rfl
    | some z => simp [normalize_zone]

/-- C10, witness: instantiation at partialDoc (zones list of length two,
first entry fully empty, second entry missing only its pin). -/
theorem C10_witness :
    partialDoc.zones
      = some [⟨none, none, none, none⟩,
              ⟨some 9, some "hide", none, some "X"⟩] ∧
    ((save_user_settings partialDoc).zones.getD []).get? 0
      = some ⟨some 0, some "show", some 14, some "Zona 1"⟩ ∧
    ((save_user_settings partialDoc).zones.getD []).get? 1
      = some ⟨some 9, some "hide", some 15, some "X"⟩ ∧
    (save_user_settings partialDoc).max_active_zones = some 3 := by
  have h := C10_save_settings_normalises partialDoc
  have hz := h.2.2.2.2.2.2.2.2.2.2
  exact ⟨rfl, (hz _ rfl 0).trans (by decide), (hz _ rfl 1).trans (by decide),
         h.2.2.2.1⟩
